import Mathlib

/-!
Verification of the UP2D8-Function ingestion pipeline.

Shallow embedding of the three ingestion entry points of the repository:
`CrawlerOrchestrator/__init__.py` (search dispatcher), `CrawlerWorker/__init__.py`
(crawl worker) and `DailyArticleScraper/__init__.py` (RSS ingestor).  Pure
computations (string parsing, tagging, summary building, set filtering, counter
accumulation) are translated directly from the Python source; external
collaborators (the document store, the search API, the headless browser, the
backend API, feedparser) are modelled by their observable results passed in as
explicit inputs.
-/

set_option autoImplicit false

namespace UP2D8

/-! ### Python string primitives

Models of the Python `str` operations the source uses: `startswith`, the `in`
substring test, `strip` (with and without a character-set argument),
`str.join`, `splitlines` and `split(sep)`, all defined over the character
list of the string so that every one of them evaluates by kernel
reduction. -/

/-- `listStarts p s` models Python `s.startswith(p)` on character lists:
`p` is an initial segment of `s`. -/
def listStarts : List Char → List Char → Bool
  | [], _ => true
  | _ :: _, [] => false
  | a :: as, b :: bs => a == b && listStarts as bs

/-- Models Python `p.startswith(q)`: `q` is an initial segment of `p`. -/
def pyStarts (s pre : String) : Bool :=
  listStarts pre.data s.data

/-- `strHasSub n h` holds when `n` occurs as a contiguous run inside `h`. -/
def strHasSub : List Char → List Char → Bool
  | n, [] => n.isEmpty
  | n, c :: rest => listStarts n (c :: rest) || strHasSub n rest

/-- Models Python `needle in haystack` (substring containment); the empty
needle is contained in every string, as in Python. -/
def pyIn (needle haystack : String) : Bool :=
  strHasSub needle.data haystack.data

/-- Models Python `s.lower()` (the source only lower-cases ASCII text). -/
def pyLower (s : String) : String :=
  ⟨s.data.map Char.toLower⟩

/-- Worker for `pySplitOn`: scans the haystack left to right; whenever the
(non-empty) separator is an initial segment of the remainder, the
accumulated piece is emitted and the separator consumed.  Each step consumes
at least one character, so `fuel` initialised to the haystack length never
runs out; the `0` branch is unreachable. -/
def pySplitGo (sep : List Char) : Nat → List Char → List Char → List (List Char)
  | _, [], acc => [acc.reverse]
  | 0, l, acc => [acc.reverse ++ l]
  | fuel + 1, c :: rest, acc =>
      if listStarts sep (c :: rest) then
        acc.reverse :: pySplitGo sep fuel (List.drop (sep.length - 1) rest) []
      else pySplitGo sep fuel rest (c :: acc)

/-- Models Python `s.split(sep)` for a non-empty separator: non-overlapping
left-to-right cuts, empty pieces kept. -/
def pySplitOn (s sep : String) : List String :=
  (pySplitGo sep.data (s.data.length + 1) s.data []).map fun cs => ⟨cs⟩

/-- Models Python `s.strip(chars)`: remove every leading and trailing
character that belongs to `cs`. -/
def pyStripSet (s : String) (cs : List Char) : String :=
  ⟨((s.data.dropWhile (· ∈ cs)).reverse.dropWhile (· ∈ cs)).reverse⟩

/-- Models Python `s.strip()` (no argument): remove leading and trailing
whitespace. -/
def pyStripWs (s : String) : String :=
  ⟨((s.data.dropWhile Char.isWhitespace).reverse.dropWhile Char.isWhitespace).reverse⟩

/-- Models Python `sep.join(xs)`. -/
def pyJoin (sep : String) : List String → String
  | [] => ""
  | [x] => x
  | x :: y :: xs => x ++ sep ++ pyJoin sep (y :: xs)

/-- Worker for `pySplitlines`: scans the character list, cutting at `\r\n`,
`\r` and `\n`; `acc` holds the current line reversed. -/
def splitlinesAux : List Char → List Char → List String
  | [], [] => []
  | [], acc => [⟨acc.reverse⟩]
  | '\r' :: '\n' :: rest, acc => ⟨acc.reverse⟩ :: splitlinesAux rest []
  | '\r' :: rest, acc => ⟨acc.reverse⟩ :: splitlinesAux rest []
  | '\n' :: rest, acc => ⟨acc.reverse⟩ :: splitlinesAux rest []
  | c :: rest, acc => splitlinesAux rest (c :: acc)

/-- Models Python `s.splitlines()` for the line terminators `\n`, `\r` and
`\r\n` (the only ones producible by the crawl worker, whose text extraction
uses `separator='\n'`): line breaks are separators and a trailing break does
not yield a final empty line. -/
def pySplitlines (s : String) : List String :=
  splitlinesAux s.data []

/-! ### RSS Ingestor — `DailyArticleScraper/__init__.py`

The keyword table and `assign_tags` are translated verbatim (lines 19–34).
The per-feed / per-entry loop of `main` (lines 56–114) is embedded with the
external collaborators replaced by their observable results: `feedparser.parse`
either raises, or returns a feed with a `bozo` flag and a list of entries; for
each entry the processing attempt either raises somewhere inside the `try`
body (attribute access or the `create_article` call), or completes with the
backend response message. -/

/-- The fixed keyword table `TAG_KEYWORDS` (lines 19–26), in source order. -/
def TAG_KEYWORDS : List (String × List String) :=
  [("AI", ["ai", "artificial intelligence", "machine learning", "deep learning",
           "neural network"]),
   ("Tech", ["technology", "software", "hardware", "startup", "innovation"]),
   ("Science", ["science", "research", "discovery", "biology", "physics",
                "chemistry"]),
   ("Business", ["business", "economy", "finance", "market", "investment"]),
   ("Health", ["health", "medical", "medicine", "wellness", "fitness"]),
   ("Environment", ["environment", "climate", "sustainability", "ecology"])]

/-- The tag-collecting loop of `assign_tags` (lines 31–33), generalised over
the table: for each `(tag, keywords)` pair in order, the tag is appended when
any keyword occurs in `content`. -/
def tagsFor (table : List (String × List String)) (content : String) : List String :=
  match table with
  | [] => []
  | (tag, kws) :: rest =>
      if kws.any (fun kw => pyIn kw content) then tag :: tagsFor rest content
      else tagsFor rest content

/-- `assign_tags` (lines 28–34): lower-case the concatenation
`title + " " + summary` and scan the keyword table. -/
def assign_tags (title summary : String) : List String :=
  tagsFor TAG_KEYWORDS (pyLower (title ++ " " ++ summary))

/-- Observable result of processing one feed entry (lines 77–102): either the
`try` body raised (caught at line 100, counted as failed), or the
`create_article` call returned a response whose `message` field is given. -/
inductive EntryOutcome where
  | raised
  | response (message : String)
deriving DecidableEq

/-- Observable result of `feedparser.parse` on one feed URL, with its `bozo`
flag and entries. -/
structure FeedData where
  bozo : Bool
  entries : List EntryOutcome
deriving DecidableEq

/-- The three per-run counters initialised at lines 61–63. -/
structure ScrapeCounters where
  created : Nat
  dup : Nat
  failed : Nat
deriving DecidableEq

/-- Processing of one entry (lines 77–102): on a raise, `failed` increments;
otherwise the response message is tested for the substring
`"created successfully"`, then `"already exists"`; a message containing
neither leaves every counter unchanged. -/
def processEntry (c : ScrapeCounters) (e : EntryOutcome) : ScrapeCounters :=
  match e with
  | .raised => { c with failed := c.failed + 1 }
  | .response msg =>
      if pyIn "created successfully" msg then { c with created := c.created + 1 }
      else if pyIn "already exists" msg then { c with dup := c.dup + 1 }
      else c

/-- Processing of one feed (lines 65–102): a parse exception (caught at
line 72) or a `bozo` feed (line 69) contributes nothing; otherwise every
entry is processed in order. -/
def processFeed (c : ScrapeCounters) (f : Except Unit FeedData) : ScrapeCounters :=
  match f with
  | .error _ => c
  | .ok fd => if fd.bozo then c else fd.entries.foldl processEntry c

/-- The whole run over the configured feed list (lines 61–114): final
counters, paired with the `feeds_processed` value reported to analytics at
line 112, which is `len(rss_feeds)` — the length of the whole list. -/
def scraperRun (feeds : List (Except Unit FeedData)) : ScrapeCounters × Nat :=
  (feeds.foldl processFeed ⟨0, 0, 0⟩, feeds.length)

/-- Number of entries the inner loop iterates over for one feed: zero when
the parse raised or the feed is `bozo`. -/
def feedEntriesCount : Except Unit FeedData → Nat
  | .error _ => 0
  | .ok fd => if fd.bozo then 0 else fd.entries.length

/-- Number of entries actually iterated over during a run: entries of feeds
that parsed without an exception and without the `bozo` flag. -/
def totalEntries (feeds : List (Except Unit FeedData)) : Nat :=
  (feeds.map feedEntriesCount).sum

/-- Sum of the three counters of a run. -/
def sumCounters (c : ScrapeCounters) : Nat :=
  c.created + c.dup + c.failed

/-! ### Dedup Store — the `articles` collection

The store is a list of documents; `CrawlerWorker/__init__.py` line 40 creates
a unique index on `link`, so `insert_one` (line 90) rejects a document whose
`link` is already present with `DuplicateKeyError`; any other document is
appended. -/

/-- The document shape built by the crawl worker (lines 79–87). -/
structure Article where
  title : String
  link : String
  summary : String
  published : String
  processed : Bool
  source : String
  content : String
deriving DecidableEq

/-- Result of `articles_collection.insert_one` under the unique index on
`link` (lines 40, 90). -/
inductive MongoInsert where
  | ok
  | duplicateKey
deriving DecidableEq

/-- `insert_one` on the articles collection: a document whose `link` already
occurs in the store is rejected with `DuplicateKeyError`; otherwise it is
stored. -/
def insert_one (store : List Article) (doc : Article) : List Article × MongoInsert :=
  if store.any (fun a => a.link == doc.link) then (store, .duplicateKey)
  else (store ++ [doc], .ok)

/-- How the ingestion path classified the insert attempt. -/
inductive StoreOutcome where
  | insertedNew
  | loggedDuplicate
deriving DecidableEq

/-- The worker's insertion step (lines 89–93): `insert_one` wrapped in
`try/except pymongo.errors.DuplicateKeyError`, which logs the duplicate and
continues — the rejection never escapes this block. -/
def ingestArticle (store : List Article) (doc : Article) : List Article × StoreOutcome :=
  match insert_one store doc with
  | (s, .ok) => (s, .insertedNew)
  | (s, .duplicateKey) => (s, .loggedDuplicate)

/-- Number of stored documents carrying the given link. -/
def linkCount (store : List Article) (l : String) : Nat :=
  (store.filter (fun a => a.link == l)).length

/-! ### Crawl Worker — `CrawlerWorker/__init__.py`

`main` consumes one queue message.  Line 28 decodes the message body as UTF-8
*before* the `try` block that starts at line 31, so a body that is not valid
UTF-8 raises out of the function; everything after line 31 is covered by the
outer `except`.  The Playwright fetch (lines 44–54) is modelled by its
observable result: an exception (launch failure, navigation error or the 60 s
timeout) or the rendered HTML.  BeautifulSoup selector queries are modelled by
the text each selector would yield. -/

/-- Observable parse results of BeautifulSoup on the fetched HTML:
`titleTag` is `soup.title.string` when a title tag exists (line 63);
`selectorTexts` lists, for each of the five selectors
`article, main, .post-content, .article-body, #content` in order (line 67),
`none` when `select_one` finds no element and `some t` when it finds one with
text `t`; `fullText` is `soup.get_text(separator='\n', strip=True)`
(line 74). -/
structure PageExtract where
  titleTag : Option String
  selectorTexts : List (Option String)
  fullText : String

/-- First selector that matched an element (the `break` at line 71). -/
def firstMatch : List (Option String) → Option String
  | [] => none
  | some t :: _ => some t
  | none :: rest => firstMatch rest

/-- Line 76: `' '.join(article_text.splitlines()[:15]) + '...'`. -/
def makeSummary (article_text : String) : String :=
  pyJoin " " ((pySplitlines article_text).take 15) ++ "..."

/-- How a worker invocation that entered the `try` block ended. -/
inductive WorkerOutcome where
  | abandonedFetch
  | abandonedNoHtml
  | stored
  | storedDuplicate
deriving DecidableEq

/-- Lines 31–96: the body of the worker's outer `try`.  On a fetch exception
the inner handler logs and returns (lines 51–54); empty HTML returns with a
warning (lines 56–58); otherwise title and body text are extracted, the
summary built, and the document inserted through `ingestArticle`.  The
function is total: no branch raises, matching the code in which the outer
`except` (line 95) can only be reached by non-modelled collaborator failures
and itself returns normally. -/
def workerTryBody (url : String) (fetch : Except String String)
    (extract : String → PageExtract) (now : String)
    (store : List Article) : List Article × WorkerOutcome :=
  match fetch with
  | .error _ => (store, .abandonedFetch)
  | .ok html =>
    if html = "" then (store, .abandonedNoHtml)
    else
      let px := extract html
      let title := px.titleTag.getD "No Title Found"
      let sel := (firstMatch px.selectorTexts).getD ""
      let article_text := if sel = "" then px.fullText else sel
      let doc : Article :=
        { title := pyStripWs title, link := url,
          summary := makeSummary article_text, published := now,
          processed := false, source := "intelligent_crawler",
          content := article_text }
      match ingestArticle store doc with
      | (s, .insertedNew) => (s, .stored)
      | (s, .loggedDuplicate) => (s, .storedDuplicate)

/-- `CrawlerWorker.main` (lines 17–96).  `decoded` is the result of
`msg.get_body().decode('utf-8')` at line 28: `none` when the body is not
valid UTF-8, in which case the `UnicodeDecodeError` is raised before the
`try` block and propagates to the host; otherwise the try body runs and the
invocation returns normally. -/
def crawlerWorkerMain (decoded : Option String) (fetch : Except String String)
    (extract : String → PageExtract) (now : String)
    (store : List Article) : Except String (List Article × WorkerOutcome) :=
  match decoded with
  | none => .error "UnicodeDecodeError"
  | some url => .ok (workerTryBody url fetch extract now store)

/-! ### Search Dispatcher — `CrawlerOrchestrator/__init__.py` -/

/-- One document of the `users` collection as read at line 44, projected to
its `topics` field; `none` models a document without the field, for which
`user.get("topics", [])` at line 45 substitutes the empty list. -/
structure PyUser where
  topics : Option (List String)
deriving DecidableEq

/-- `user.get("topics", [])` (line 45). -/
def userTopics (u : PyUser) : List String :=
  u.topics.getD []

/-- Lines 43–46: `all_topics = set()` then `all_topics.add(topic)` for every
topic of every user.  No filtering of any kind is applied to the topic
strings. -/
def aggregateTopics (users : List PyUser) : Finset String :=
  users.foldl (fun acc u => (userTopics u).foldl (fun a t => insert t a) acc) ∅

/-- Lines 66–72: handling of one piece `res` of the split response.  The
piece is split on `", '"`; when that yields more than one part, part 1 is
whitespace-stripped then apostrophe-stripped, and kept iff it starts with
`"http"`. -/
def parseStep (acc : Finset String) (res : String) : Finset String :=
  match pySplitOn res ", '" with
  | _ :: p1 :: _ =>
      let link := pyStripSet (pyStripWs p1) ['\'']
      if pyStarts link "http" then insert link acc else acc
  | _ => acc

/-- Lines 65–72 over the whole response: fold `parseStep` over the split
pieces, starting from the empty set. -/
def parseSearchResponse (s : String) : Finset String :=
  (pySplitOn (pyStripSet s ['[', ']']) "), (").foldl parseStep ∅

/-- Lines 82–89: query the store for which candidate URLs already exist as
`link` values (the `$in` filter returns exactly the stored links that are
candidates) and subtract them from the candidate set. -/
def filter_new (candidates : Finset String) (storeLinks : List String) : Finset String :=
  candidates \ (storeLinks.filter (fun l => l ∈ candidates)).toFinset

/-- Inputs of one orchestrator invocation: outcomes of the external
collaborators.  `secretsOk` models lines 26–40 (Key Vault reads, the
`os.environ` writes and the Mongo connection): `false` when any of them
raises.  `searchInitOk` models the `GoogleSearchAPIWrapper()` construction at
line 55.  `searchRun q` is the outcome of `search.run(q)` at line 63 for the
query string `q`.  `storeLinks` is the set of `link` values present in the
articles collection. -/
structure OrchestratorEnv where
  secretsOk : Bool
  searchInitOk : Bool
  users : List PyUser
  searchRun : String → Except Unit String
  storeLinks : List String

/-- Lines 58–74 for one topic: build the query `"latest articles about "`
plus the topic, run the search, parse on success; a raised search error is
caught per topic (lines 73–74) and contributes no URLs. -/
def candidatesForTopic (env : OrchestratorEnv) (topic : String) : Finset String :=
  match env.searchRun ("latest articles about " ++ topic) with
  | .error _ => ∅
  | .ok s => parseSearchResponse s

/-- Lines 24–94: the body of the orchestrator's `try` block.  `.error` marks
an exception that would escape to the outer handler at line 96 (secret or
connection failure, search-wrapper construction failure); `.ok` carries the
set of URLs returned for queueing.  The code returns a `list(...)` of a set
whose order is arbitrary, so the result is modelled as the `Finset` of
emitted URLs. -/
def orchestratorTryBody (env : OrchestratorEnv) : Except Unit (Finset String) :=
  if env.secretsOk = false then .error ()
  else
    let all_topics := aggregateTopics env.users
    if all_topics = ∅ then .ok ∅
    else if env.searchInitOk = false then .error ()
    else
      let all_found_urls := all_topics.sup (candidatesForTopic env)
      if all_found_urls = ∅ then .ok ∅
      else .ok (filter_new all_found_urls env.storeLinks)

/-- The names bound at module level of `CrawlerOrchestrator/__init__.py`: the
imports at lines 1–8 and the `def main` itself.  Unlike
`CrawlerWorker/__init__.py` (line 15) and `DailyArticleScraper/__init__.py`
(line 16), this module never executes `logger = structlog.get_logger()`, so
the name `logger` is absent. -/
def crawlerOrchestratorGlobals : List String :=
  ["os", "func", "load_dotenv", "pymongo", "GoogleSearchAPIWrapper",
   "get_secret_client", "structlog", "configure_logger", "main"]

/-- `CrawlerOrchestrator.main` (lines 10–98).  Line 21 runs `load_dotenv()`;
line 22 then evaluates `logger.info(...)`, which resolves the global name
`logger`.  Both statements precede the `try` block at line 24, so an
exception they raise propagates to the host.  When the lookup succeeds the
`try` body runs and the outer `except` (lines 96–98) converts any escaped
exception into the return value `[]`. -/
def crawlerOrchestratorMain (env : OrchestratorEnv) : Except String (Finset String) :=
  if "logger" ∈ crawlerOrchestratorGlobals then
    match orchestratorTryBody env with
    | .ok urls => .ok urls
    | .error _ => .ok ∅
  else .error "NameError: name 'logger' is not defined"

/-! ### Definitions written from the spec's words (for refinement claims) -/

/-- Written from the spec: an entry "recognizable as an absolute HTTP(S)
link" — a string beginning with the scheme `http://` or `https://`. -/
def isAbsoluteHttpLink (l : String) : Bool :=
  pyStarts l "http://" || pyStarts l "https://"

/-- Written from the spec: "the set of distinct non-empty topic strings
across all users" — the union of every user's topics, with empty strings
removed. -/
def specNonEmptyTopics (users : List PyUser) : Finset String :=
  (aggregateTopics users).filter (fun t => t ≠ "")

/-! ### Helper lemmas -/

/-- A character other than a line break walks into the accumulator. -/
theorem splitlinesAux_cons_of_ne (c : Char) (h1 : c ≠ '\n') (h2 : c ≠ '\r')
    (rest acc : List Char) :
    splitlinesAux (c :: rest) acc = splitlinesAux rest (c :: acc) := by
  rw [splitlinesAux.eq_def]
  split
  all_goals simp_all

/-- A break-free block of characters moves wholesale into the accumulator. -/
theorem splitlinesAux_append (cs : List Char) (h : ∀ c ∈ cs, c ≠ '\n' ∧ c ≠ '\r') :
    ∀ rest acc, splitlinesAux (cs ++ rest) acc = splitlinesAux rest (cs.reverse ++ acc) := by
  induction cs with
  | nil => intro rest acc; rfl
  | cons c cs' ih =>
      intro rest acc
      have hc := h c (List.mem_cons_self c cs')
      rw [List.cons_append, splitlinesAux_cons_of_ne c hc.1 hc.2,
        ih (fun x hx => h x (List.mem_cons_of_mem c hx)) rest (c :: acc)]
      simp

/-- `pySplitlines` recovers the lines of a body built by joining non-empty,
break-free lines with `\n`. -/
theorem pySplitlines_join (lines : List String)
    (h : ∀ l ∈ lines, l ≠ "" ∧ ∀ c ∈ l.data, c ≠ '\n' ∧ c ≠ '\r') :
    pySplitlines (pyJoin "\n" lines) = lines := by
  induction lines with
  | nil => rfl
  | cons x xs ih =>
      have hx := h x (List.mem_cons_self x xs)
      have heqn : ∀ rest acc, splitlinesAux ('\n' :: rest) acc
          = ⟨acc.reverse⟩ :: splitlinesAux rest [] := fun _ _ => rfl
      rcases xs with _ | ⟨y, ys⟩
      · show splitlinesAux (pyJoin "\n" [x]).data [] = [x]
        have hj : pyJoin "\n" [x] = x := rfl
        rw [hj]
        have happ := splitlinesAux_append x.data hx.2 [] []
        simp only [List.append_nil] at happ
        rw [happ]
        rcases hxd : x.data.reverse with _ | ⟨c, cs⟩
        · exfalso
          apply hx.1
          have hd : x.data = [] := by
            have := congrArg List.reverse hxd
            simpa using this
          cases x with
          | mk d => cases hd; rfl
        · show [(⟨(c :: cs).reverse⟩ : String)] = [x]
          rw [← hxd]
          simp
      · have hj : pyJoin "\n" (x :: y :: ys) = x ++ "\n" ++ pyJoin "\n" (y :: ys) := rfl
        show splitlinesAux (pyJoin "\n" (x :: y :: ys)).data [] = x :: y :: ys
        rw [hj]
        have hdata : (x ++ "\n" ++ pyJoin "\n" (y :: ys)).data
            = x.data ++ ('\n' :: (pyJoin "\n" (y :: ys)).data) := by
          simp [String.data_append]
        rw [hdata, splitlinesAux_append x.data hx.2, heqn]
        have htail : splitlinesAux (pyJoin "\n" (y :: ys)).data [] = y :: ys :=
          ih (fun l hl => h l (List.mem_cons_of_mem x hl))
        rw [htail]
        simp only [List.append_nil, List.reverse_reverse]

/-- Membership in the tag-collecting loop, over an arbitrary table. -/
theorem mem_tagsFor (table : List (String × List String)) (content tag : String) :
    tag ∈ tagsFor table content ↔
      ∃ kws, (tag, kws) ∈ table ∧ ∃ kw ∈ kws, pyIn kw content = true := by
  induction table with
  | nil => simp [tagsFor]
  | cons p rest ih =>
      obtain ⟨t, kws⟩ := p
      by_cases hany : kws.any (fun kw => pyIn kw content) = true
      · rw [List.any_eq_true] at hany
        simp only [tagsFor, if_pos (List.any_eq_true.mpr hany), List.mem_cons, ih,
          Prod.mk.injEq]
        constructor
        · rintro (rfl | ⟨kws', hk, hkw⟩)
          · exact ⟨kws, Or.inl ⟨rfl, rfl⟩, hany⟩
          · exact ⟨kws', Or.inr hk, hkw⟩
        · rintro ⟨kws', hor, hkw⟩
          rcases hor with ⟨rfl, rfl⟩ | hk
          · exact Or.inl rfl
          · exact Or.inr ⟨kws', hk, hkw⟩
      · simp only [tagsFor, if_neg hany, ih]
        constructor
        · rintro ⟨kws', hk, hkw⟩
          exact ⟨kws', List.mem_cons_of_mem _ hk, hkw⟩
        · rintro ⟨kws', hor, hkw⟩
          rcases List.mem_cons.mp hor with heq | hk
          · obtain ⟨rfl, rfl⟩ := Prod.mk.injEq .. ▸ heq
            exact absurd (List.any_eq_true.mpr hkw) hany
          · exact ⟨kws', hk, hkw⟩

/-- Membership after folding `insert` over a list of topics. -/
theorem mem_foldl_insert (l : List String) (acc : Finset String) (t : String) :
    t ∈ l.foldl (fun a x => insert x a) acc ↔ t ∈ acc ∨ t ∈ l := by
  induction l generalizing acc with
  | nil => simp
  | cons x xs ih =>
      simp only [List.foldl_cons, ih, Finset.mem_insert, List.mem_cons]
      tauto

/-- The aggregation loop collects exactly the union of every user's topics. -/
theorem mem_aggregateTopics (users : List PyUser) (t : String) :
    t ∈ aggregateTopics users ↔ ∃ u ∈ users, t ∈ userTopics u := by
  suffices hgen : ∀ acc : Finset String,
      (t ∈ users.foldl (fun acc u => (userTopics u).foldl (fun a x => insert x a) acc) acc ↔
        t ∈ acc ∨ ∃ u ∈ users, t ∈ userTopics u) by
    have := hgen ∅
    simpa [aggregateTopics] using this
  induction users with
  | nil => intro acc; simp
  | cons u us ih =>
      intro acc
      simp only [List.foldl_cons, ih, mem_foldl_insert, List.mem_cons]
      constructor
      · rintro ((ha | hu) | ⟨u', hu', ht⟩)
        · exact Or.inl ha
        · exact Or.inr ⟨u, Or.inl rfl, hu⟩
        · exact Or.inr ⟨u', Or.inr hu', ht⟩
      · rintro (ha | ⟨u', (rfl | hu'), ht⟩)
        · exact Or.inl (Or.inl ha)
        · exact Or.inl (Or.inr ht)
        · exact Or.inr ⟨u', hu', ht⟩

/-- `parseStep` only ever adds links that start with `"http"`. -/
theorem mem_parseStep (acc : Finset String) (res y : String)
    (hy : y ∈ parseStep acc res) : y ∈ acc ∨ pyStarts y "http" = true := by
  unfold parseStep at hy
  split at hy
  · rename_i p1 ps heq
    dsimp only at hy
    split at hy
    · rename_i hstarts
      rcases Finset.mem_insert.mp hy with rfl | hmem
      · exact Or.inr hstarts
      · exact Or.inl hmem
    · exact Or.inl hy
  · exact Or.inl hy

/-- Folding `parseStep` preserves the `"http"`-start property. -/
theorem parse_foldl_starts (results : List String) (acc : Finset String)
    (hacc : ∀ x ∈ acc, pyStarts x "http" = true) :
    ∀ x ∈ results.foldl parseStep acc, pyStarts x "http" = true := by
  induction results generalizing acc with
  | nil => simpa using hacc
  | cons r rs ih =>
      intro x hx
      rw [List.foldl_cons] at hx
      refine ih (parseStep acc r) ?_ x hx
      intro z hz
      rcases mem_parseStep acc r z hz with hmem | hs
      · exact hacc z hmem
      · exact hs

/-- One entry moves the counter sum up by at most one. -/
theorem sumCounters_processEntry (c : ScrapeCounters) (e : EntryOutcome) :
    sumCounters (processEntry c e) ≤ sumCounters c + 1 := by
  cases e with
  | raised => simp [processEntry, sumCounters]; omega
  | response msg =>
      simp only [processEntry]
      split
      · simp [sumCounters]; omega
      · split
        · simp [sumCounters]; omega
        · simp [sumCounters]

/-- The entry loop moves the counter sum up by at most the entry count. -/
theorem sumCounters_foldl (es : List EntryOutcome) (c : ScrapeCounters) :
    sumCounters (es.foldl processEntry c) ≤ sumCounters c + es.length := by
  induction es generalizing c with
  | nil => simp
  | cons e es' ih =>
      have h1 := ih (processEntry c e)
      have h2 := sumCounters_processEntry c e
      calc sumCounters ((e :: es').foldl processEntry c)
          = sumCounters (es'.foldl processEntry (processEntry c e)) := rfl
        _ ≤ sumCounters (processEntry c e) + es'.length := h1
        _ ≤ sumCounters c + (e :: es').length := by simp [List.length_cons]; omega

/-- One feed moves the counter sum up by at most its processed-entry count. -/
theorem sumCounters_processFeed (c : ScrapeCounters) (f : Except Unit FeedData) :
    sumCounters (processFeed c f) ≤ sumCounters c + feedEntriesCount f := by
  cases f with
  | error e => simp [processFeed, feedEntriesCount]
  | ok fd =>
      by_cases hb : fd.bozo = true
      · simp [processFeed, feedEntriesCount, hb]
      · have hb' : fd.bozo = false := by simpa using hb
        simpa [processFeed, feedEntriesCount, hb'] using sumCounters_foldl fd.entries c

/-- The whole run moves the counter sum up by at most the total processed
entry count. -/
theorem sumCounters_run (feeds : List (Except Unit FeedData)) (c : ScrapeCounters) :
    sumCounters (feeds.foldl processFeed c) ≤ sumCounters c + totalEntries feeds := by
  induction feeds generalizing c with
  | nil => simp [totalEntries]
  | cons f fs ih =>
      have h1 := ih (processFeed c f)
      have h2 := sumCounters_processFeed c f
      calc sumCounters ((f :: fs).foldl processFeed c)
          = sumCounters (fs.foldl processFeed (processFeed c f)) := rfl
        _ ≤ sumCounters (processFeed c f) + totalEntries fs := h1
        _ ≤ sumCounters c + totalEntries (f :: fs) := by
            simp only [totalEntries, List.map_cons, List.sum_cons]
            omega

/-! ### Claims -/

/-- C1: the claim says every entry-point invocation catches every top-level
error and ends cleanly.  The code contradicts it: `CrawlerOrchestrator.main`
evaluates `logger.info(...)` at line 22, before its `try` block, and the
module never binds the global name `logger`, so every invocation — whatever
the environment — raises `NameError` out of the function to the host. -/
theorem claim_C1_orchestrator_raises (env : OrchestratorEnv) :
    crawlerOrchestratorMain env = .error "NameError: name 'logger' is not defined" := by
  unfold crawlerOrchestratorMain
  rw [if_neg (by decide)]

/-- C2: starting from a store holding no document for the link, two insert
attempts with the same link leave exactly one stored document for it; the
second attempt is classified `loggedDuplicate` by the worker's handler —
never any other outcome — and the ingestion step is a total function, so no
exception escapes it. -/
theorem claim_C2_duplicate_insert (store : List Article) (d1 d2 : Article)
    (hl : d2.link = d1.link) (hfresh : ∀ a ∈ store, a.link ≠ d1.link) :
    linkCount (ingestArticle (ingestArticle store d1).1 d2).1 d1.link = 1 ∧
    (ingestArticle (ingestArticle store d1).1 d2).2 = StoreOutcome.loggedDuplicate := by
  have h1 : store.any (fun a => a.link == d1.link) = false := by
    rw [List.any_eq_false]
    intro a ha
    simpa using hfresh a ha
  have hstep1 : ingestArticle store d1 = (store ++ [d1], StoreOutcome.insertedNew) := by
    simp [ingestArticle, insert_one, h1]
  have h2 : (store ++ [d1]).any (fun a => a.link == d2.link) = true := by
    rw [List.any_eq_true]
    exact ⟨d1, by simp, by simp [hl]⟩
  have hstep2 : ingestArticle (store ++ [d1]) d2
      = (store ++ [d1], StoreOutcome.loggedDuplicate) := by
    simp [ingestArticle, insert_one, h2]
  rw [hstep1]
  rw [show ((store ++ [d1], StoreOutcome.insertedNew)).1 = store ++ [d1] from rfl, hstep2]
  refine ⟨?_, rfl⟩
  unfold linkCount
  rw [List.filter_append]
  have hstore : store.filter (fun a => a.link == d1.link) = [] := by
    rw [List.filter_eq_nil_iff]
    intro a ha
    simpa using hfresh a ha
  rw [hstore]
  simp

/-- C2 witness: a concrete fresh store and two articles sharing a link. -/
theorem claim_C2_witness :
    linkCount (ingestArticle (ingestArticle []
        ⟨"t1", "https://x.com/1", "s1", "p1", false, "intelligent_crawler", "c1"⟩).1
        ⟨"t2", "https://x.com/1", "s2", "p2", false, "intelligent_crawler", "c2"⟩).1
      "https://x.com/1" = 1 ∧
    (ingestArticle (ingestArticle []
        ⟨"t1", "https://x.com/1", "s1", "p1", false, "intelligent_crawler", "c1"⟩).1
        ⟨"t2", "https://x.com/1", "s2", "p2", false, "intelligent_crawler", "c2"⟩).2
      = StoreOutcome.loggedDuplicate :=
  claim_C2_duplicate_insert []
    ⟨"t1", "https://x.com/1", "s1", "p1", false, "intelligent_crawler", "c1"⟩
    ⟨"t2", "https://x.com/1", "s2", "p2", false, "intelligent_crawler", "c2"⟩
    rfl (by simp)

/-- C3 counterexample: a user whose topic list holds the empty string.  The
aggregation loop returns `{""}`, while the claimed result — the set of
distinct non-empty topic strings — is `∅`; the two differ, so the claim as
stated is false on the code. -/
theorem claim_C3_counterexample :
    aggregateTopics [⟨some [""]⟩] = {""} ∧
    specNonEmptyTopics [⟨some [""]⟩] = ∅ ∧
    ({""} : Finset String) ≠ (∅ : Finset String) :=
  ⟨rfl, rfl, Finset.singleton_ne_empty ""⟩

/-- C3 amended: topic aggregation returns exactly the union of every user's
topics — deduplicated but with empty strings retained — and when that set is
empty the try body returns the empty work list without error. -/
theorem claim_C3_amended_aggregation (users : List PyUser) (t : String)
    (env : OrchestratorEnv) (hsec : env.secretsOk = true)
    (hempty : aggregateTopics env.users = ∅) :
    (t ∈ aggregateTopics users ↔ ∃ u ∈ users, t ∈ userTopics u) ∧
    orchestratorTryBody env = .ok ∅ := by
  refine ⟨mem_aggregateTopics users t, ?_⟩
  simp [orchestratorTryBody, hsec, hempty]

/-- C3 witness: one user with one topic, and an environment with no users. -/
theorem claim_C3_witness :
    (("x" : String) ∈ aggregateTopics [⟨some ["x"]⟩] ↔
      ∃ u ∈ [(⟨some ["x"]⟩ : PyUser)], "x" ∈ userTopics u) ∧
    orchestratorTryBody ⟨true, true, [], fun _ => .error (), []⟩ = .ok ∅ :=
  claim_C3_amended_aggregation [⟨some ["x"]⟩] "x"
    ⟨true, true, [], fun _ => .error (), []⟩ rfl rfl

/-- C4: the dedup filter returns exactly the set difference
candidates − existing, is idempotent, and on the end-to-end scenario — store
holding `https://x.com/1`, candidates `{https://x.com/1, https://x.com/2}` —
emits exactly the task `https://x.com/2`. -/
theorem claim_C4_filter_new (c : Finset String) (s : List String) (x : String) :
    (x ∈ filter_new c s ↔ x ∈ c ∧ x ∉ s) ∧
    filter_new (filter_new c s) s = filter_new c s ∧
    filter_new ({"https://x.com/1", "https://x.com/2"} : Finset String)
      ["https://x.com/1"] = {"https://x.com/2"} := by
  have hmem : ∀ (c : Finset String) (s : List String) (x : String),
      x ∈ filter_new c s ↔ x ∈ c ∧ x ∉ s := by
    intro c s x
    simp only [filter_new, Finset.mem_sdiff, List.mem_toFinset, List.mem_filter,
      decide_eq_true_eq]
    tauto
  refine ⟨hmem c s x, ?_, rfl⟩
  ext y
  simp only [hmem]
  tauto

/-- C5 counterexample: the response piece `(a, 'httpx')` survives parsing —
the code only tests `startswith("http")` — yet `httpx` is not an absolute
HTTP(S) link, so the claim that every retained candidate is an absolute
HTTP(S) link is false on the code. -/
theorem claim_C5_counterexample :
    parseSearchResponse "[(a, 'httpx'), (b, 'y')]" = {"httpx"} ∧
    isAbsoluteHttpLink "httpx" = false :=
  ⟨rfl, rfl⟩

/-- C5 amended: every candidate the dispatcher retains starts with the four
characters `http` (the check the code actually performs); entries failing it
are dropped without any exception, the parser being a total function. -/
theorem claim_C5_amended_retained_starts_http (s l : String)
    (h : l ∈ parseSearchResponse s) : pyStarts l "http" = true :=
  parse_foldl_starts _ ∅ (fun x hx => absurd hx (Finset.not_mem_empty x)) l h

/-- C5 witness: the retained candidate `httpx` starts with `http`. -/
theorem claim_C5_witness :
    ("httpx" : String) ∈ parseSearchResponse "[(a, 'httpx'), (b, 'y')]" ∧
    pyStarts "httpx" "http" = true := by
  have hmem : ("httpx" : String) ∈ parseSearchResponse "[(a, 'httpx'), (b, 'y')]" := by
    rw [show parseSearchResponse "[(a, 'httpx'), (b, 'y')]" = {"httpx"} from rfl]
    exact Finset.mem_singleton_self "httpx"
  exact ⟨hmem, claim_C5_amended_retained_starts_http _ "httpx" hmem⟩

/-- C6: when the Playwright fetch raises (failure or timeout) the worker
returns normally with the store untouched, and likewise when it yields empty
HTML; the invocation ends in `.ok`, so nothing propagates and the queue
message is considered handled. -/
theorem claim_C6_fetch_failure (url e : String) (extract : String → PageExtract)
    (now : String) (store : List Article) :
    crawlerWorkerMain (some url) (.error e) extract now store
      = .ok (store, WorkerOutcome.abandonedFetch) ∧
    crawlerWorkerMain (some url) (.ok "") extract now store
      = .ok (store, WorkerOutcome.abandonedNoHtml) :=
  ⟨rfl, rfl⟩

/-- C7: a `bozo` feed anywhere in the run contributes nothing to the
counters — the run over the remaining feeds is unchanged — while the
`feeds_processed` value reported to analytics still counts it. -/
theorem claim_C7_malformed_feed (pre suf : List (Except Unit FeedData))
    (fd : FeedData) (hb : fd.bozo = true) :
    (scraperRun (pre ++ .ok fd :: suf)).1 = (scraperRun (pre ++ suf)).1 ∧
    (scraperRun (pre ++ .ok fd :: suf)).2 = pre.length + suf.length + 1 := by
  constructor
  · show (pre ++ .ok fd :: suf).foldl processFeed ⟨0, 0, 0⟩
        = (pre ++ suf).foldl processFeed ⟨0, 0, 0⟩
    rw [List.foldl_append, List.foldl_cons, List.foldl_append]
    congr 1
    simp [processFeed, hb]
  · simp [scraperRun]
    omega

/-- C7 witness: a malformed feed followed by a well-formed one. -/
theorem claim_C7_witness :
    (scraperRun ([] ++ .ok ⟨true, [EntryOutcome.raised]⟩
        :: [.ok ⟨false, [EntryOutcome.response "created successfully"]⟩])).1
      = (scraperRun ([] ++ [.ok ⟨false, [EntryOutcome.response "created successfully"]⟩])).1 ∧
    (scraperRun ([] ++ .ok ⟨true, [EntryOutcome.raised]⟩
        :: [.ok ⟨false, [EntryOutcome.response "created successfully"]⟩])).2
      = List.length ([] : List (Except Unit FeedData))
        + List.length [(.ok ⟨false, [EntryOutcome.response "created successfully"]⟩ : Except Unit FeedData)] + 1 :=
  claim_C7_malformed_feed []
    [.ok ⟨false, [EntryOutcome.response "created successfully"]⟩]
    ⟨true, [EntryOutcome.raised]⟩ rfl

/-- C8: for any body assembled from non-empty, break-free lines joined by
newlines, the computed summary is the first 15 lines joined by single spaces
followed by the ellipsis marker. -/
theorem claim_C8_summary (lines : List String)
    (h : ∀ l ∈ lines, l ≠ "" ∧ ∀ c ∈ l.data, c ≠ '\n' ∧ c ≠ '\r') :
    makeSummary (pyJoin "\n" lines) = pyJoin " " (lines.take 15) ++ "..." := by
  unfold makeSummary
  rw [pySplitlines_join lines h]

/-- C8 witness: a body of exactly 20 lines. -/
theorem claim_C8_witness :
    makeSummary (pyJoin "\n" ["l01", "l02", "l03", "l04", "l05", "l06", "l07",
      "l08", "l09", "l10", "l11", "l12", "l13", "l14", "l15", "l16", "l17",
      "l18", "l19", "l20"])
    = pyJoin " " (["l01", "l02", "l03", "l04", "l05", "l06", "l07", "l08",
      "l09", "l10", "l11", "l12", "l13", "l14", "l15", "l16", "l17", "l18",
      "l19", "l20"].take 15) ++ "..." :=
  claim_C8_summary ["l01", "l02", "l03", "l04", "l05", "l06", "l07", "l08",
    "l09", "l10", "l11", "l12", "l13", "l14", "l15", "l16", "l17", "l18",
    "l19", "l20"] (by decide)

/-- C9: a tag is assigned iff one of its keywords occurs in the lower-cased
concatenation of title and summary; on title `New AI breakthrough` with
empty summary the tags include `AI`, and on empty title and summary no tag
is assigned. -/
theorem claim_C9_assign_tags (title summary tag : String) :
    (tag ∈ assign_tags title summary ↔
      ∃ kws, (tag, kws) ∈ TAG_KEYWORDS ∧ ∃ kw ∈ kws,
        pyIn kw (pyLower (title ++ " " ++ summary)) = true) ∧
    "AI" ∈ assign_tags "New AI breakthrough" "" ∧
    assign_tags "" "" = [] := by
  refine ⟨mem_tagsFor TAG_KEYWORDS (pyLower (title ++ " " ++ summary)) tag, ?_, rfl⟩
  rw [show assign_tags "New AI breakthrough" "" = ["AI"] from rfl]
  simp

/-- C10: in every run the created, duplicate and failed counters sum to at
most the number of entries processed, and an entry whose backend response
message contains neither `created successfully` nor `already exists` leaves
all three counters unchanged. -/
theorem claim_C10_counters (feeds : List (Except Unit FeedData))
    (c : ScrapeCounters) (msg : String)
    (h1 : pyIn "created successfully" msg = false)
    (h2 : pyIn "already exists" msg = false) :
    ((scraperRun feeds).1.created + (scraperRun feeds).1.dup
        + (scraperRun feeds).1.failed ≤ totalEntries feeds) ∧
    processEntry c (.response msg) = c := by
  constructor
  · have h := sumCounters_run feeds ⟨0, 0, 0⟩
    simpa [scraperRun, sumCounters] using h
  · simp [processEntry, h1, h2]

/-- C10 witness: a run with created, duplicate, failed and uncounted
entries, and a response message matching neither phrase. -/
theorem claim_C10_witness :
    ((scraperRun [.ok ⟨false, [EntryOutcome.response "Article created successfully",
        EntryOutcome.raised, EntryOutcome.response "no status here"]⟩, .error (),
        .ok ⟨true, [EntryOutcome.raised]⟩]).1.created
      + (scraperRun [.ok ⟨false, [EntryOutcome.response "Article created successfully",
        EntryOutcome.raised, EntryOutcome.response "no status here"]⟩, .error (),
        .ok ⟨true, [EntryOutcome.raised]⟩]).1.dup
      + (scraperRun [.ok ⟨false, [EntryOutcome.response "Article created successfully",
        EntryOutcome.raised, EntryOutcome.response "no status here"]⟩, .error (),
        .ok ⟨true, [EntryOutcome.raised]⟩]).1.failed
      ≤ totalEntries [.ok ⟨false, [EntryOutcome.response "Article created successfully",
        EntryOutcome.raised, EntryOutcome.response "no status here"]⟩, .error (),
        .ok ⟨true, [EntryOutcome.raised]⟩]) ∧
    processEntry ⟨5, 6, 7⟩ (.response "no status here") = ⟨5, 6, 7⟩ :=
  claim_C10_counters [.ok ⟨false, [EntryOutcome.response "Article created successfully",
      EntryOutcome.raised, EntryOutcome.response "no status here"]⟩, .error (),
      .ok ⟨true, [EntryOutcome.raised]⟩]
    ⟨5, 6, 7⟩ "no status here" rfl rfl

end UP2D8

